import Mathlib

/-!
Shallow embedding of the probe abstraction and fitting/serialization engine of
`src/probity/probes/linear_probe.py`, together with theorems settling the
frozen claims C1..C10 about it.

Modelling conventions:
* Tensors are lists of real numbers (`Vec`) or lists of rows (`List Vec`);
  torch float arithmetic is embedded as exact real arithmetic.
* Python dictionaries (`config.additional_info`, JSON metadata) are ordered
  association lists from `String` to `JsonVal`; `dictSet` overwrites in place
  like a Python dict assignment, `dictGet` is `dict.get`.
* Fallible Python code (raised exceptions) is embedded as `Except ProbeError`.
* `1e-8`, `1e-5`, `1e-4` literals of the source appear as `1 / 10 ^ 8` etc.
-/

/-- A dense activation or direction vector (a 1-D float tensor). -/
abbrev Vec := List ℝ

/-- Dot product of two equal-length vectors; models `torch.einsum("d,d->", x, y)`
and row-times-vector products. -/
noncomputable def dot (xs ys : Vec) : ℝ :=
  (List.zipWith (fun a b => a * b) xs ys).sum

/-- Sum of squares of the entries of a vector. -/
noncomputable def sumSq (v : Vec) : ℝ :=
  (v.map (fun a => a * a)).sum

/-- L2 norm of a 1-D tensor; models `torch.norm(v)` for a vector `v`. -/
noncomputable def l2norm (v : Vec) : ℝ :=
  Real.sqrt (sumSq v)

/-- Frobenius norm of a 2-D tensor; models `torch.norm(m)` for a matrix `m`.
For a single-row matrix `[v]` it coincides with `l2norm v`. -/
noncomputable def l2normMat (m : List Vec) : ℝ :=
  Real.sqrt ((m.map sumSq).sum)

/-- Elementwise difference of two vectors (`u - v` in torch, equal shapes). -/
noncomputable def vecSub (u v : Vec) : Vec :=
  List.zipWith (fun a b => a - b) u v

/-- Sum of a non-empty stack of rows along dim 0 (`x.sum(dim=0)`); rows are
assumed to share one length, as torch enforces. -/
noncomputable def vsum : List Vec → Vec
  | [] => []
  | [v] => v
  | v :: rest => List.zipWith (fun a b => a + b) v (vsum rest)

/-- Mean of a stack of rows along dim 0 (`x.mean(dim=0)`).  torch returns NaN
entries for an empty stack; the claims only use non-empty stacks, where this
model is exact. -/
noncomputable def vmean (rows : List Vec) : Vec :=
  (vsum rows).map (fun a => a / (rows.length : ℝ))

/-- The rows of `x` whose label in `y` equals `c`; models boolean-mask
selection `x[y == c]`. -/
noncomputable def selectRows (x : List Vec) (y : List ℝ) (c : ℝ) : List Vec :=
  match x, y with
  | xi :: xs, yi :: ys =>
      if yi = c then xi :: selectRows xs ys c else selectRows xs ys c
  | _, _ => []

/-- The expression `direction / (torch.norm(direction) + 1e-8)` used verbatim by
`KMeansProbe.fit`, `PCAProbe.fit`, `MeanDifferenceProbe.fit` and the
single-output branch of the gradient probes. -/
noncomputable def normalizeEps (d : Vec) : Vec :=
  d.map (fun a => a / (l2norm d + 1 / 10 ^ 8))

/-- Result of `get_direction`: a 1-D tensor for single-output probes, a 2-D
`[output_size, input_size]` tensor for multi-output gradient probes.  The
constructor records the tensor's number of dimensions, which `torch.einsum`
inspects. -/
inductive DirResult where
  | vec (v : Vec)
  | mat (m : List Vec)

/-- The vector carried by a 1-D `DirResult` (junk `[]` on a matrix). -/
def dirVec : DirResult → Vec
  | DirResult.vec v => v
  | DirResult.mat _ => []

/-- `shape[0]` of a direction tensor, as read by `ProbeSet.__init__`. -/
def dirLen : DirResult → Nat
  | DirResult.vec v => v.length
  | DirResult.mat m => m.length

/-- Exceptions raised by the probe code, each kind kept distinct. -/
inductive ProbeError where
  /-- `RuntimeError("Must call fit() before ...")`. -/
  | notFitted
  /-- `ValueError` (dimension mismatch in `ProbeSet.__init__`, unrecognized
  JSON format in `load_json`). -/
  | valueError
  /-- `UnboundLocalError` (a `NameError`): the legacy branch of `load_json`
  reads the local `metadata` that was never assigned. -/
  | nameError
  /-- `AttributeError`: a base `ProbeConfig` lacks the subclass fields read by
  a concrete probe constructor. -/
  | attributeError
  /-- `torch.einsum` rejecting an operand whose number of dimensions does not
  match its subscripts. -/
  | einsumNdim
  /-- `torch.einsum` rejecting mismatched sizes on a shared subscript. -/
  | einsumSize
  /-- `torch.stack` rejecting an empty list or mismatched shapes. -/
  | stackShape
  /-- `torch.matmul` shape mismatch. -/
  | matmulShape
deriving DecidableEq

/-- A JSON-serializable value stored in `additional_info`: the code only ever
reads booleans (the idempotence flags) and lists of floats (buffers). -/
inductive JsonVal where
  | b (b : Bool)
  | vec (v : Vec)

/-- An `additional_info` dictionary: ordered keys, string-keyed. -/
abbrev AInfo := List (String × JsonVal)

/-- `d.get(k)` on a Python dict (first and only binding of `k`). -/
def dictGet (d : AInfo) (k : String) : Option JsonVal :=
  (d.find? (fun pr => pr.1 == k)).map (fun pr => pr.2)

/-- `d[k] = v` on a Python dict: overwrite in place if the key exists
(insertion order is preserved), else append. -/
def dictSet (d : AInfo) (k : String) (v : JsonVal) : AInfo :=
  if d.any (fun pr => pr.1 == k) then
    d.map (fun pr => if pr.1 == k then (k, v) else pr)
  else d ++ [(k, v)]

/-- Python truthiness of `d.get(k, False)`, as used for the
`is_unscaled` / `is_normalized` flags. -/
def truthy : Option JsonVal → Bool
  | none => false
  | some (JsonVal.b b) => b
  | some (JsonVal.vec v) => !v.isEmpty

/-- The vector stored under `k`, when present (`torch.tensor(d[k])` for
list-valued entries, the only shape the code writes for buffer keys). -/
def dictGetVec (d : AInfo) (k : String) : Option Vec :=
  match dictGet d k with
  | some (JsonVal.vec v) => some v
  | _ => none

/-- `ProbeConfig`: the base configuration dataclass.  The source default for
`device` is `"cuda"` when available, else `"cpu"`; the model fixes the
environment-independent `"cpu"` default. -/
structure ProbeConfig where
  input_size : Nat
  device : String := "cpu"
  model_name : String := "unknown_model"
  hook_point : String := "unknown_hook"
  hook_layer : Int := 0
  hook_head_index : Option Int := none
  name : String := "unnamed_probe"
  dataset_path : Option String := none
  prepend_bos : Bool := true
  context_size : Int := 128
  dtype : String := "float32"
  additional_info : AInfo := []

/-- `LinearProbeConfig` (dataclass inheritance embedded as a `base` field). -/
structure LinearProbeConfig where
  base : ProbeConfig
  loss_type : String := "mse"
  normalize_weights : Bool := true
  bias : Bool := false
  output_size : Nat := 1

/-- `LogisticProbeConfig`. -/
structure LogisticProbeConfig where
  base : ProbeConfig
  normalize_weights : Bool := true
  bias : Bool := true
  output_size : Nat := 1

/-- `KMeansProbeConfig`. -/
structure KMeansProbeConfig where
  base : ProbeConfig
  n_clusters : Nat := 2
  n_init : Nat := 10
  normalize_weights : Bool := true
  random_state : Int := 42

/-- `PCAProbeConfig`. -/
structure PCAProbeConfig where
  base : ProbeConfig
  n_components : Nat := 1
  normalize_weights : Bool := true

/-- `MeanDiffProbeConfig`. -/
structure MeanDiffProbeConfig where
  base : ProbeConfig
  normalize_weights : Bool := true

/-- `self.name = config.name or "unnamed_probe"` in `BaseProbe.__init__`
(Python `or` replaces an empty string by the default). -/
def orUnnamed (s : String) : String :=
  if s = "" then "unnamed_probe" else s

/-- State of a `LinearProbe`: the `nn.Linear` weight matrix
(`[output_size, input_size]`), its optional bias, the lazily captured
standardization buffers, and the probe name. -/
structure LinearProbe where
  config : LinearProbeConfig
  weight : List Vec
  bias : Option Vec
  feature_mean : Option Vec
  feature_std : Option Vec
  name : String

/-- State of a `LogisticProbe` (same shape of state as `LinearProbe`). -/
structure LogisticProbe where
  config : LogisticProbeConfig
  weight : List Vec
  bias : Option Vec
  feature_mean : Option Vec
  feature_std : Option Vec
  name : String

/-- State of a `KMeansProbe`: the fitted direction or `None`.  The sklearn
`KMeans` object itself is an external solver and carries no state the claims
read. -/
structure KMeansProbe where
  config : KMeansProbeConfig
  direction : Option Vec
  name : String

/-- State of a `PCAProbe`. -/
structure PCAProbe where
  config : PCAProbeConfig
  direction : Option Vec
  name : String

/-- State of a `MeanDifferenceProbe`. -/
structure MeanDifferenceProbe where
  config : MeanDiffProbeConfig
  direction : Option Vec
  name : String

/-- `KMeansProbe.__init__`: the direction starts unset. -/
def mkKMeansProbe (cfg : KMeansProbeConfig) : KMeansProbe :=
  { config := cfg, direction := none, name := orUnnamed cfg.base.name }

/-- `PCAProbe.__init__`: the direction starts unset. -/
def mkPCAProbe (cfg : PCAProbeConfig) : PCAProbe :=
  { config := cfg, direction := none, name := orUnnamed cfg.base.name }

/-- `MeanDifferenceProbe.__init__`: the direction starts unset. -/
def mkMeanDifferenceProbe (cfg : MeanDiffProbeConfig) : MeanDifferenceProbe :=
  { config := cfg, direction := none, name := orUnnamed cfg.base.name }

/-- `direction / self.feature_std.squeeze()`: divide each weight row
elementwise by the feature-std vector (broadcast over rows; shapes agree for
states reachable from the constructor and buffers of matching width). -/
noncomputable def unscaleRows (w : List Vec) (fs : Vec) : List Vec :=
  w.map (fun row => List.zipWith (fun a b => a / b) row fs)

/-- `direction.squeeze(0)`: drops dim 0 exactly when it has size 1. -/
def squeeze0 : List Vec → DirResult
  | [v] => DirResult.vec v
  | m => DirResult.mat m

/-- The unscaling stage of `get_direction` (lines 502-509): the raw weight
matrix, divided row-wise by `feature_std` when that buffer exists and
`additional_info` does not already flag `is_unscaled`.  This is the
pre-normalization direction the normalization stage then works on. -/
noncomputable def gradUnscaled (weight : List Vec) (feature_std : Option Vec)
    (ai : AInfo) : List Vec :=
  match feature_std with
  | some fs =>
      if truthy (dictGet ai "is_unscaled") then weight
      else unscaleRows weight fs
  | none => weight

/-- `LinearProbe.get_direction` / `LogisticProbe.get_direction` (the two
method bodies are identical in the source): start from the raw weight, unscale
by `feature_std` unless `additional_info` flags `is_unscaled`
(`gradUnscaled`), normalize (per-row for multi-output, whole-tensor norm for
single-output) unless the config opts out or `additional_info` flags
`is_normalized`, and squeeze a single-output result to 1-D. -/
noncomputable def gradDirection (weight : List Vec) (feature_std : Option Vec)
    (normalize_weights : Bool) (output_size : Nat) (ai : AInfo) : DirResult :=
  let already_normalized := truthy (dictGet ai "is_normalized")
  let d1 : List Vec := gradUnscaled weight feature_std ai
  let d2 : List Vec :=
    if normalize_weights && !already_normalized then
      if 1 < output_size then
        d1.map normalizeEps
      else
        d1.map (fun row => row.map (fun a => a / (l2normMat d1 + 1 / 10 ^ 8)))
    else d1
  if output_size = 1 then squeeze0 d2 else DirResult.mat d2

/-- `LinearProbe.get_direction`. -/
noncomputable def LinearProbe.get_direction (p : LinearProbe) : DirResult :=
  gradDirection p.weight p.feature_std p.config.normalize_weights
    p.config.output_size p.config.base.additional_info

/-- `LogisticProbe.get_direction`. -/
noncomputable def LogisticProbe.get_direction (p : LogisticProbe) : DirResult :=
  gradDirection p.weight p.feature_std p.config.normalize_weights
    p.config.output_size p.config.base.additional_info

/-- `KMeansProbe.get_direction`: raises before a successful `fit`. -/
def KMeansProbe.get_direction (p : KMeansProbe) : Except ProbeError Vec :=
  match p.direction with
  | none => Except.error ProbeError.notFitted
  | some d => Except.ok d

/-- `PCAProbe.get_direction`: raises before a successful `fit`. -/
def PCAProbe.get_direction (p : PCAProbe) : Except ProbeError Vec :=
  match p.direction with
  | none => Except.error ProbeError.notFitted
  | some d => Except.ok d

/-- `MeanDifferenceProbe.get_direction`: raises before a successful `fit`. -/
def MeanDifferenceProbe.get_direction (p : MeanDifferenceProbe) :
    Except ProbeError Vec :=
  match p.direction with
  | none => Except.error ProbeError.notFitted
  | some d => Except.ok d

/-- `torch.einsum("...d,d->...", acts, d)` for a batch of rows: requires the
shared subscript sizes to agree, then dots every row with `d`. -/
noncomputable def einsumVecDot (acts : List Vec) (d : Vec) :
    Except ProbeError (List ℝ) :=
  if acts.all (fun row => row.length == d.length) then
    Except.ok (acts.map (fun row => dot row d))
  else Except.error ProbeError.einsumSize

/-- `BaseProbe.encode`: fetch the direction (propagating its error) and apply
`torch.einsum("...d,d->...", acts, direction)`.  The subscript `d` covers one
dimension, so einsum rejects a 2-D direction tensor. -/
noncomputable def baseEncode (gd : Except ProbeError DirResult)
    (acts : List Vec) : Except ProbeError (List ℝ) :=
  match gd with
  | Except.error e => Except.error e
  | Except.ok (DirResult.vec v) => einsumVecDot acts v
  | Except.ok (DirResult.mat _) => Except.error ProbeError.einsumNdim

/-- `encode` on a `LinearProbe` (inherited from `BaseProbe`). -/
noncomputable def LinearProbe.encode (p : LinearProbe) (acts : List Vec) :
    Except ProbeError (List ℝ) :=
  baseEncode (Except.ok p.get_direction) acts

/-- `encode` on a `LogisticProbe`. -/
noncomputable def LogisticProbe.encode (p : LogisticProbe) (acts : List Vec) :
    Except ProbeError (List ℝ) :=
  baseEncode (Except.ok p.get_direction) acts

/-- `encode` on a `KMeansProbe`. -/
noncomputable def KMeansProbe.encode (p : KMeansProbe) (acts : List Vec) :
    Except ProbeError (List ℝ) :=
  baseEncode (Except.map DirResult.vec p.get_direction) acts

/-- `encode` on a `PCAProbe`. -/
noncomputable def PCAProbe.encode (p : PCAProbe) (acts : List Vec) :
    Except ProbeError (List ℝ) :=
  baseEncode (Except.map DirResult.vec p.get_direction) acts

/-- `encode` on a `MeanDifferenceProbe`. -/
noncomputable def MeanDifferenceProbe.encode (p : MeanDifferenceProbe)
    (acts : List Vec) : Except ProbeError (List ℝ) :=
  baseEncode (Except.map DirResult.vec p.get_direction) acts

/-- `KMeansProbe.forward`: raises before `fit`, else `torch.matmul(x, d)`. -/
noncomputable def KMeansProbe.forward (p : KMeansProbe) (x : List Vec) :
    Except ProbeError (List ℝ) :=
  match p.direction with
  | none => Except.error ProbeError.notFitted
  | some d =>
      if x.all (fun row => row.length == d.length) then
        Except.ok (x.map (fun row => dot row d))
      else Except.error ProbeError.matmulShape

/-- `PCAProbe.forward`. -/
noncomputable def PCAProbe.forward (p : PCAProbe) (x : List Vec) :
    Except ProbeError (List ℝ) :=
  match p.direction with
  | none => Except.error ProbeError.notFitted
  | some d =>
      if x.all (fun row => row.length == d.length) then
        Except.ok (x.map (fun row => dot row d))
      else Except.error ProbeError.matmulShape

/-- `MeanDifferenceProbe.forward`. -/
noncomputable def MeanDifferenceProbe.forward (p : MeanDifferenceProbe)
    (x : List Vec) : Except ProbeError (List ℝ) :=
  match p.direction with
  | none => Except.error ProbeError.notFitted
  | some d =>
      if x.all (fun row => row.length == d.length) then
        Except.ok (x.map (fun row => dot row d))
      else Except.error ProbeError.matmulShape

/-- The unnormalized mean-difference direction of `MeanDifferenceProbe.fit`:
`x[y == 1].mean(dim=0) - x[y == 0].mean(dim=0)`. -/
noncomputable def meanDiffRaw (x : List Vec) (y : List ℝ) : Vec :=
  vecSub (vmean (selectRows x y 1)) (vmean (selectRows x y 0))

/-- `MeanDifferenceProbe.fit`: class-mean difference, normalized with the
`+1e-8` epsilon when the config requests it, stored as the direction. -/
noncomputable def MeanDifferenceProbe.fit (p : MeanDifferenceProbe)
    (x : List Vec) (y : List ℝ) : MeanDifferenceProbe :=
  let d := meanDiffRaw x y
  let d := if p.config.normalize_weights then normalizeEps d else d
  { p with direction := some d }

/-- The direction computation at the end of `KMeansProbe.fit` (lines 654-667),
taking the positive and negative centroids selected from the external sklearn
solver's output: centroid difference, optionally epsilon-normalized. -/
noncomputable def centroidsToDirection (cfg : KMeansProbeConfig)
    (pos neg : Vec) : Vec :=
  let d := vecSub pos neg
  if cfg.normalize_weights then normalizeEps d else d

/-- The direction computation at the end of `PCAProbe.fit` (lines 711-721),
taking the sign-corrected first principal component from the external sklearn
solver: optionally epsilon-normalized. -/
noncomputable def componentToDirection (cfg : PCAProbeConfig) (c : Vec) : Vec :=
  if cfg.normalize_weights then normalizeEps c else c

/-- `self.config.additional_info` updated by `BaseProbe.save` / `save_json`:
a copy of the dict with `feature_mean`, `feature_std` and `bias` entries added
for whichever buffers/parameters exist on the probe, in that order. -/
def augmentInfo (ai : AInfo) (fm fs b : Option Vec) : AInfo :=
  let ai := match fm with
    | some v => dictSet ai "feature_mean" (JsonVal.vec v)
    | none => ai
  let ai := match fs with
    | some v => dictSet ai "feature_std" (JsonVal.vec v)
    | none => ai
  match b with
  | some v => dictSet ai "bias" (JsonVal.vec v)
  | none => ai

/-- The serialized `state_dict` of a gradient probe: `linear.weight`, the
optional `linear.bias`, and the registered standardization buffers (absent
from the state dict while they are `None`). -/
structure GradState where
  weight : List Vec
  bias : Option Vec
  feature_mean : Option Vec
  feature_std : Option Vec

/-- The container written by `BaseProbe.save` for a `LinearProbe`:
`torch.save({'state_dict': ..., 'config': ..., 'direction': ..., 'probe_type': ...})`.
`state_dict : Option _` records whether the key is present in the container
(`BaseProbe.save` always writes it; `load` also accepts files without it). -/
structure SavedFileLinear where
  state_dict : Option GradState
  config : LinearProbeConfig
  direction : DirResult
  probe_type : String

/-- `BaseProbe.save` specialized to `LinearProbe`: computes the transformed
direction, replaces `config.additional_info` with the augmented copy (a real
mutation of the probe's config), and writes the container.  Returns the
(mutated) probe together with the file. -/
noncomputable def LinearProbe.save (p : LinearProbe) :
    LinearProbe × SavedFileLinear :=
  let d := p.get_direction
  let ai := augmentInfo p.config.base.additional_info
    p.feature_mean p.feature_std p.bias
  let cfg : LinearProbeConfig :=
    { p.config with base := { p.config.base with additional_info := ai } }
  ({ p with config := cfg },
   { state_dict := some
       { weight := p.weight, bias := p.bias,
         feature_mean := p.feature_mean, feature_std := p.feature_std },
     config := cfg, direction := d, probe_type := "LinearProbe" })

/-- The container written by `BaseProbe.save` for a `MeanDifferenceProbe`.
Its `state_dict` is the empty dict (the fitted direction is a plain attribute,
not a parameter or registered buffer), but the key is always present, modelled
by `Option Unit`. -/
structure SavedFileMD where
  state_dict : Option Unit
  config : MeanDiffProbeConfig
  direction : Vec
  probe_type : String

/-- `BaseProbe.save` specialized to `MeanDifferenceProbe`: raises NotFitted
through `get_direction` on an unfitted probe; otherwise writes the container.
The probe has no standardization buffers and no `linear`, so the
`additional_info` copy adds nothing and the probe is returned unchanged. -/
def MeanDifferenceProbe.save (p : MeanDifferenceProbe) :
    Except ProbeError (MeanDifferenceProbe × SavedFileMD) :=
  match p.direction with
  | none => Except.error ProbeError.notFitted
  | some d =>
      let ai := p.config.base.additional_info
      let cfg : MeanDiffProbeConfig :=
        { p.config with base := { p.config.base with additional_info := ai } }
      Except.ok ({ p with config := cfg },
        { state_dict := some (), config := cfg, direction := d,
          probe_type := "MeanDifferenceProbe" })

/-- `BaseProbe.load` specialized to `MeanDifferenceProbe`: rebuilds the probe
from the saved config; because the container has a `state_dict` key, the
`elif 'direction' in data` fallback never runs, so `load_state_dict` of the
empty dict leaves the fresh probe's direction `None`.  Only a container
without the `state_dict` key would have the stored direction assigned. -/
def MeanDifferenceProbe.load (f : SavedFileMD) : MeanDifferenceProbe :=
  let probe := mkMeanDifferenceProbe f.config
  let probe :=
    match f.state_dict with
    | some _ => probe
    | none => { probe with direction := some f.direction }
  { probe with name := f.config.base.name }

/-- The `metadata` object of the JSON file written by `save_json`. -/
structure Metadata where
  model_name : String
  hook_point : String
  hook_layer : Int
  hook_head_index : Option Int
  vector_name : String
  vector_dimension : Nat
  probe_type : String
  dataset_path : Option String
  prepend_bos : Bool
  context_size : Int
  dtype : String
  device : String
  additional_info : AInfo

/-- A JSON payload as classified by `load_json`: the current
`{"vector": ..., "metadata": ...}` format, the three accepted legacy shapes,
or anything else (which raises `ValueError`). -/
inductive JsonDoc where
  | newFormat (vector : Vec) (metadata : Metadata)
  | legacyVectors (vectors : List Vec)
  | legacyDirection (direction : Vec)
  | bareList (v : Vec)
  | other

/-- The vector embedded in a JSON payload (index 0 of a `vectors` list). -/
def jsonVectorOf : JsonDoc → Vec
  | JsonDoc.newFormat v _ => v
  | JsonDoc.legacyVectors vs => vs.headD []
  | JsonDoc.legacyDirection v => v
  | JsonDoc.bareList v => v
  | JsonDoc.other => []

/-- `raw_weight = self.linear.weight.data.squeeze(0)` in `save_json`, for a
single-output probe, whose `[1, d]` weight squeezes to the `d`-vector written
as the JSON `vector`.  (A multi-output probe would serialize a nested list,
which this embedding does not model; the claims use single-output probes
here.) -/
def rawWeightVec (w : List Vec) : Vec :=
  match w with
  | [v] => v
  | _ => []

/-- `BaseProbe.save_json` specialized to `LinearProbe`: writes the RAW linear
weight (not `get_direction()`), plus metadata whose `additional_info` is the
augmented copy with `is_normalized` and `is_unscaled` forced to `True`.  The
probe itself is not mutated (the code copies the dict). -/
def LinearProbe.save_json (p : LinearProbe) : JsonDoc :=
  let raw := rawWeightVec p.weight
  let ai := augmentInfo p.config.base.additional_info
    p.feature_mean p.feature_std p.bias
  let ai := dictSet ai "is_normalized" (JsonVal.b true)
  let ai := dictSet ai "is_unscaled" (JsonVal.b true)
  JsonDoc.newFormat raw
    { model_name := p.config.base.model_name
      hook_point := p.config.base.hook_point
      hook_layer := p.config.base.hook_layer
      hook_head_index := p.config.base.hook_head_index
      vector_name := p.name
      vector_dimension := raw.length
      probe_type := "LinearProbe"
      dataset_path := p.config.base.dataset_path
      prepend_bos := p.config.base.prepend_bos
      context_size := p.config.base.context_size
      dtype := p.config.base.dtype
      device := p.config.base.device
      additional_info := ai }

/-- The `is_normalized`/`is_unscaled` defaulting applied to the loaded
config's `additional_info` when the metadata does not already carry the
`is_normalized` key (lines 260-262). -/
def flagDefault (ai : AInfo) : AInfo :=
  if (dictGet ai "is_normalized").isNone then
    dictSet (dictSet ai "is_normalized" (JsonVal.b true))
      "is_unscaled" (JsonVal.b true)
  else ai

/-- The base `ProbeConfig` assembled by the new-format branch of `load_json`
when no config is passed: dataclass defaults with `input_size` from the vector
length, then every metadata field copied in, then the flag defaulting. -/
def baseFromMetadata (dim : Nat) (m : Metadata) : ProbeConfig :=
  { input_size := dim
    device := m.device
    model_name := m.model_name
    hook_point := m.hook_point
    hook_layer := m.hook_layer
    hook_head_index := m.hook_head_index
    name := m.vector_name
    dataset_path := m.dataset_path
    prepend_bos := m.prepend_bos
    context_size := m.context_size
    dtype := m.dtype
    additional_info := flagDefault m.additional_info }

/-- `BaseProbe.load_json` specialized to `LinearProbe`, no config argument.

New format: builds a default `LinearProbeConfig` (so `normalize_weights=True`,
`bias=False`, `output_size=1` regardless of the saving probe), overwrites its
base fields from the metadata, constructs the probe, installs the stored
vector as the `[1, d]` weight (the fresh random weight is discarded), skips
the bias restore because the default config makes `linear.bias` `None`, and
re-registers `feature_mean`/`feature_std` buffers from `additional_info`.

Legacy shapes: the code builds a bare `ProbeConfig` and calls
`LinearProbe(config)`, which reads `config.output_size` — a field the base
dataclass does not have — raising `AttributeError`. -/
def LinearProbe.load_json : JsonDoc → Except ProbeError LinearProbe
  | JsonDoc.newFormat v m =>
      let cfg : LinearProbeConfig := { base := baseFromMetadata v.length m }
      Except.ok
        { config := cfg
          weight := [v]
          bias := none
          feature_mean := dictGetVec m.additional_info "feature_mean"
          feature_std := dictGetVec m.additional_info "feature_std"
          name := cfg.base.name }
  | JsonDoc.legacyVectors _ => Except.error ProbeError.attributeError
  | JsonDoc.legacyDirection _ => Except.error ProbeError.attributeError
  | JsonDoc.bareList _ => Except.error ProbeError.attributeError
  | JsonDoc.other => Except.error ProbeError.valueError

/-- `BaseProbe.load_json` specialized to `MeanDifferenceProbe`, no config
argument.

New format: builds a default `MeanDiffProbeConfig`, overwrites base fields
from the metadata, and assigns the vector as the probe's direction (the probe
has no `linear`); the buffer restore only `register_buffer`s attributes this
probe never reads.

Legacy shapes: the bare `ProbeConfig` is accepted by this constructor and the
direction is assigned, but line 297 then evaluates
`"additional_info" in metadata` with the local `metadata` unbound (it is only
assigned in the new-format branch), raising `UnboundLocalError` for every
legacy payload. -/
def MeanDifferenceProbe.load_json : JsonDoc → Except ProbeError MeanDifferenceProbe
  | JsonDoc.newFormat v m =>
      let cfg : MeanDiffProbeConfig := { base := baseFromMetadata v.length m }
      Except.ok { config := cfg, direction := some v, name := cfg.base.name }
  | JsonDoc.legacyVectors _ => Except.error ProbeError.nameError
  | JsonDoc.legacyDirection _ => Except.error ProbeError.nameError
  | JsonDoc.bareList _ => Except.error ProbeError.nameError
  | JsonDoc.other => Except.error ProbeError.valueError

/-- A probe of any concrete variant, as stored in a `ProbeSet`. -/
inductive AnyProbe where
  | linear (p : LinearProbe)
  | logistic (p : LogisticProbe)
  | kmeans (p : KMeansProbe)
  | pca (p : PCAProbe)
  | meandiff (p : MeanDifferenceProbe)

/-- `get_direction` dispatched on the variant. -/
noncomputable def AnyProbe.get_direction : AnyProbe → Except ProbeError DirResult
  | AnyProbe.linear p => Except.ok p.get_direction
  | AnyProbe.logistic p => Except.ok p.get_direction
  | AnyProbe.kmeans p => Except.map DirResult.vec p.get_direction
  | AnyProbe.pca p => Except.map DirResult.vec p.get_direction
  | AnyProbe.meandiff p => Except.map DirResult.vec p.get_direction

/-- `encode` dispatched on the variant (all variants inherit
`BaseProbe.encode`). -/
noncomputable def AnyProbe.encode (q : AnyProbe) (acts : List Vec) :
    Except ProbeError (List ℝ) :=
  baseEncode q.get_direction acts

/-- The probe's `ProbeConfig` portion, used for the set-level metadata. -/
def AnyProbe.baseConfig : AnyProbe → ProbeConfig
  | AnyProbe.linear p => p.config.base
  | AnyProbe.logistic p => p.config.base
  | AnyProbe.kmeans p => p.config.base
  | AnyProbe.pca p => p.config.base
  | AnyProbe.meandiff p => p.config.base

/-- A constructed `ProbeSet`; the convenience metadata attributes exist only
when the probe list is non-empty. -/
structure ProbeSet where
  probes : List AnyProbe
  model_name : Option String
  hook_point : Option String
  hook_layer : Option Int

/-- `[p.get_direction().shape[0] for p in probes]`: first raised error wins. -/
noncomputable def dimsOf : List AnyProbe → Except ProbeError (List Nat)
  | [] => Except.ok []
  | q :: rest =>
      match q.get_direction with
      | Except.error e => Except.error e
      | Except.ok d =>
          match dimsOf rest with
          | Except.error e => Except.error e
          | Except.ok ds => Except.ok (dirLen d :: ds)

/-- `ProbeSet.__init__`: collect the direction dims, raise `ValueError` when
they are not all equal (`len(set(dims)) > 1`), otherwise build the set with
metadata from the first probe when one exists. -/
noncomputable def ProbeSet.init (probes : List AnyProbe) :
    Except ProbeError ProbeSet :=
  match dimsOf probes with
  | Except.error e => Except.error e
  | Except.ok dims =>
      if 1 < dims.dedup.length then Except.error ProbeError.valueError
      else Except.ok
        { probes := probes
          model_name := probes.head?.map (fun q => q.baseConfig.model_name)
          hook_point := probes.head?.map (fun q => q.baseConfig.hook_point)
          hook_layer := probes.head?.map (fun q => q.baseConfig.hook_layer) }

/-- `[p.get_direction() for p in self.probes]` in `ProbeSet.encode`. -/
noncomputable def getDirections : List AnyProbe → Except ProbeError (List DirResult)
  | [] => Except.ok []
  | q :: rest =>
      match q.get_direction with
      | Except.error e => Except.error e
      | Except.ok d =>
          match getDirections rest with
          | Except.error e => Except.error e
          | Except.ok ds => Except.ok (d :: ds)

/-- `torch.stack` on the collected directions: rejects an empty list and
mismatched shapes.  (Stacking several multi-output matrices of one shared
shape is possible in torch but not modelled; the claims concern single-output
members.) -/
def torchStack (ds : List DirResult) : Except ProbeError (List Vec) :=
  match ds with
  | [] => Except.error ProbeError.stackShape
  | DirResult.mat _ :: _ => Except.error ProbeError.stackShape
  | DirResult.vec v0 :: rest =>
      if (DirResult.vec v0 :: rest).all (fun d =>
          match d with
          | DirResult.vec v => v.length == v0.length
          | DirResult.mat _ => false) then
        Except.ok ((DirResult.vec v0 :: rest).map dirVec)
      else Except.error ProbeError.stackShape

/-- `ProbeSet.encode`: stack all member directions into a `[n, d]` matrix and
apply `torch.einsum("...d,nd->...n", acts, weight_matrix)`. -/
noncomputable def ProbeSet.encode (s : ProbeSet) (acts : List Vec) :
    Except ProbeError (List (List ℝ)) :=
  match getDirections s.probes with
  | Except.error e => Except.error e
  | Except.ok ds =>
      match torchStack ds with
      | Except.error e => Except.error e
      | Except.ok dirs =>
          if acts.all (fun row => row.length == (dirs.headD []).length) then
            Except.ok (acts.map (fun row => dirs.map (fun v => dot row v)))
          else Except.error ProbeError.einsumSize

/-- Column `j` of a row-major result matrix (the scores of probe `j`). -/
noncomputable def column (m : List (List ℝ)) (j : Nat) : List ℝ :=
  m.map (fun row => row.getD j 0)

/-- Per-coordinate closeness of two vectors within tolerance `t` (out-of-range
indices read as `0` on both sides). -/
def withinTol (u v : Vec) (t : ℝ) : Prop :=
  u.length = v.length ∧ ∀ i : Nat, |u.getD i 0 - v.getD i 0| ≤ t

/-- `LogisticProbeConfigBase` merged with `SklearnLogisticProbeConfig`
(the base dataclass exists only to be extended by it). -/
structure SklearnLogisticProbeConfig where
  base : ProbeConfig
  standardize : Bool := true
  normalize_weights : Bool := true
  bias : Bool := true
  output_size : Nat := 1
  max_iter : Nat := 100
  random_state : Int := 42

/-- State of a `SklearnLogisticProbe`.  The sklearn `LogisticRegression` and
`StandardScaler` are external solvers; what the probe's own code reads back
from them is `model.coef_[0]` and — when `config.standardize` made a scaler
exist — the fitted `scaler.scale_` vector, modelled as explicit fields. -/
structure SklearnLogisticProbe where
  config : SklearnLogisticProbeConfig
  coef : Vec
  scale : Option Vec
  name : String

/-- The `coef = coef / self.scaler.scale_` step of
`SklearnLogisticProbe.get_direction`: unscale the solver coefficients when a
scaler exists. -/
noncomputable def SklearnLogisticProbe.unscaledCoef
    (p : SklearnLogisticProbe) : Vec :=
  match p.scale with
  | some s => List.zipWith (fun a b => a / b) p.coef s
  | none => p.coef

/-- `SklearnLogisticProbe.get_direction`: the (unscaled) solver coefficients,
epsilon-normalized when the config requests it — the same
`direction / (torch.norm(direction) + 1e-8)` site as the other variants. -/
noncomputable def SklearnLogisticProbe.get_direction
    (p : SklearnLogisticProbe) : Vec :=
  if p.config.normalize_weights then normalizeEps p.unscaledCoef
  else p.unscaledCoef

/-- The container written by `BaseProbe.save` for a `LogisticProbe`. -/
structure SavedFileLogistic where
  state_dict : Option GradState
  config : LogisticProbeConfig
  direction : DirResult
  probe_type : String

/-- `BaseProbe.save` specialized to `LogisticProbe` (the same shared method
body as for `LinearProbe`: compute the direction, mutate
`config.additional_info` to the buffer-augmented copy, write the container). -/
noncomputable def LogisticProbe.save (p : LogisticProbe) :
    LogisticProbe × SavedFileLogistic :=
  let d := p.get_direction
  let ai := augmentInfo p.config.base.additional_info
    p.feature_mean p.feature_std p.bias
  let cfg : LogisticProbeConfig :=
    { p.config with base := { p.config.base with additional_info := ai } }
  ({ p with config := cfg },
   { state_dict := some
       { weight := p.weight, bias := p.bias,
         feature_mean := p.feature_mean, feature_std := p.feature_std },
     config := cfg, direction := d, probe_type := "LogisticProbe" })

/-- The container written by `BaseProbe.save` for a `KMeansProbe` (empty state
dict: the direction and the sklearn object are not parameter state). -/
structure SavedFileKM where
  state_dict : Option Unit
  config : KMeansProbeConfig
  direction : Vec
  probe_type : String

/-- `BaseProbe.save` specialized to `KMeansProbe`: raises NotFitted through
`get_direction` on an unfitted probe; otherwise the `additional_info` copy
adds nothing (no buffers, no `linear`) and the probe is returned unchanged. -/
def KMeansProbe.save (p : KMeansProbe) :
    Except ProbeError (KMeansProbe × SavedFileKM) :=
  match p.direction with
  | none => Except.error ProbeError.notFitted
  | some d =>
      let ai := p.config.base.additional_info
      let cfg : KMeansProbeConfig :=
        { p.config with base := { p.config.base with additional_info := ai } }
      Except.ok ({ p with config := cfg },
        { state_dict := some (), config := cfg, direction := d,
          probe_type := "KMeansProbe" })

/-- The container written by `BaseProbe.save` for a `PCAProbe`. -/
structure SavedFilePCA where
  state_dict : Option Unit
  config : PCAProbeConfig
  direction : Vec
  probe_type : String

/-- `BaseProbe.save` specialized to `PCAProbe`: as for `KMeansProbe`. -/
def PCAProbe.save (p : PCAProbe) :
    Except ProbeError (PCAProbe × SavedFilePCA) :=
  match p.direction with
  | none => Except.error ProbeError.notFitted
  | some d =>
      let ai := p.config.base.additional_info
      let cfg : PCAProbeConfig :=
        { p.config with base := { p.config.base with additional_info := ai } }
      Except.ok ({ p with config := cfg },
        { state_dict := some (), config := cfg, direction := d,
          probe_type := "PCAProbe" })

lemma find?_map_overwrite (d : AInfo) (k k2 : String) (v : JsonVal)
    (h : (k == k2) = false) :
    (d.map (fun pr => if pr.1 == k then (k, v) else pr)).find?
        (fun pr => pr.1 == k2)
      = d.find? (fun pr => pr.1 == k2) := by
  induction d with
  | nil => rfl
  | cons pr rest ih =>
    rw [List.map_cons]
    by_cases hk : (pr.1 == k) = true
    · have hpr : (pr.1 == k2) = false := by
        have hk2 : pr.1 = k := by simpa using hk
        simpa [hk2] using h
      rw [if_pos hk]
      simp only [List.find?, h, hpr, cond_false]
      exact ih
    · rw [if_neg hk]
      by_cases hp : (pr.1 == k2) = true
      · simp only [List.find?, hp, cond_true]
      · have hpb : (pr.1 == k2) = false := by simpa using hp
        simp only [List.find?, hpb, cond_false]
        exact ih

lemma find?_append_single (d : AInfo) (k k2 : String) (v : JsonVal)
    (h : (k == k2) = false) :
    (d ++ [(k, v)]).find? (fun pr => pr.1 == k2)
      = d.find? (fun pr => pr.1 == k2) := by
  induction d with
  | nil => simp [List.find?, h]
  | cons pr rest ih =>
    rw [List.cons_append]
    by_cases hp : (pr.1 == k2) = true
    · simp only [List.find?, hp, cond_true]
    · have hpb : (pr.1 == k2) = false := by simpa using hp
      simp only [List.find?, hpb, cond_false]
      exact ih

/-- Writing one key leaves lookups of every other key unchanged. -/
lemma dictGet_dictSet_ne (d : AInfo) (k k2 : String) (v : JsonVal)
    (h : k2 ≠ k) :
    dictGet (dictSet d k v) k2 = dictGet d k2 := by
  have hbeq : (k == k2) = false := by
    simp only [beq_eq_false_iff_ne]
    exact fun he => h he.symm
  unfold dictSet dictGet
  by_cases hany : d.any (fun pr => pr.1 == k)
  · rw [if_pos hany, find?_map_overwrite d k k2 v hbeq]
  · rw [if_neg hany, find?_append_single d k k2 v hbeq]

/-- The `save` augmentation touches only the three buffer keys. -/
lemma dictGet_augment (ai : AInfo) (fm fs b : Option Vec) (k : String)
    (h1 : k ≠ "feature_mean") (h2 : k ≠ "feature_std") (h3 : k ≠ "bias") :
    dictGet (augmentInfo ai fm fs b) k = dictGet ai k := by
  unfold augmentInfo
  cases fm <;> cases fs <;> cases b <;>
    simp only [] <;>
    simp [dictGet_dictSet_ne _ _ _ _ h1, dictGet_dictSet_ne _ _ _ _ h2,
      dictGet_dictSet_ne _ _ _ _ h3]

/-- `get_direction` reads `additional_info` only through the two idempotence
flags. -/
lemma gradDirection_flags (w : List Vec) (fs : Option Vec) (nw : Bool)
    (os : Nat) (a1 a2 : AInfo)
    (h1 : truthy (dictGet a1 "is_unscaled") = truthy (dictGet a2 "is_unscaled"))
    (h2 : truthy (dictGet a1 "is_normalized")
        = truthy (dictGet a2 "is_normalized")) :
    gradDirection w fs nw os a1 = gradDirection w fs nw os a2 := by
  unfold gradDirection gradUnscaled
  rw [h2]
  cases fs with
  | none => rfl
  | some s => rw [h1]

/-- Trained `LinearProbe` whose standardization buffer makes `save` grow
`additional_info`. -/
def c6Probe : LinearProbe :=
  { config := { base := { input_size := 1 } }
    weight := [[3]]
    bias := none
    feature_mean := none
    feature_std := some [2]
    name := "p" }

/-- C6 counterexample: `save` is not observation-preserving on
`config.additional_info` — for a trained probe with a `feature_std` buffer and
an empty `additional_info`, the call leaves the dict with a new
`feature_std` entry, so it does not hold exactly the same keys as before. -/
theorem c6_save_mutates_counterexample :
    (LinearProbe.save c6Probe).1.config.base.additional_info ≠
      c6Probe.config.base.additional_info := by
  simp [LinearProbe.save, c6Probe, augmentInfo, dictSet]

/-- C6 amended, for every trained probe variant: `save` never changes what
`get_direction` returns (the keys it adds are not the idempotence flags), and
for the closed-form variants (KMeans, PCA, MeanDifference) the probe value is
entirely unchanged; for the gradient variants (Linear, Logistic)
`config.additional_info` is unchanged exactly when the probe has no
`feature_mean`/`feature_std` buffers and no bias — when such buffers exist
`save` augments the dict with their entries, so the keys do change then. -/
theorem c6_save_amended :
    (∀ p : LinearProbe,
      (LinearProbe.save p).1.get_direction = p.get_direction ∧
      (p.feature_mean = none → p.feature_std = none → p.bias = none →
        (LinearProbe.save p).1.config.base.additional_info =
          p.config.base.additional_info)) ∧
    (∀ p : LogisticProbe,
      (LogisticProbe.save p).1.get_direction = p.get_direction ∧
      (p.feature_mean = none → p.feature_std = none → p.bias = none →
        (LogisticProbe.save p).1.config.base.additional_info =
          p.config.base.additional_info)) ∧
    (∀ (p : KMeansProbe) (d : Vec), p.direction = some d →
      ∃ f, KMeansProbe.save p = Except.ok (p, f) ∧ f.direction = d) ∧
    (∀ (p : PCAProbe) (d : Vec), p.direction = some d →
      ∃ f, PCAProbe.save p = Except.ok (p, f) ∧ f.direction = d) ∧
    (∀ (p : MeanDifferenceProbe) (d : Vec), p.direction = some d →
      ∃ f, MeanDifferenceProbe.save p = Except.ok (p, f) ∧ f.direction = d) := by
  refine ⟨?_, ?_, ?_, ?_, ?_⟩
  · intro p
    constructor
    · unfold LinearProbe.get_direction LinearProbe.save
      simp only []
      apply gradDirection_flags
      · rw [dictGet_augment _ _ _ _ _ (by decide) (by decide) (by decide)]
      · rw [dictGet_augment _ _ _ _ _ (by decide) (by decide) (by decide)]
    · intro h1 h2 h3
      unfold LinearProbe.save augmentInfo
      simp [h1, h2, h3]
  · intro p
    constructor
    · unfold LogisticProbe.get_direction LogisticProbe.save
      simp only []
      apply gradDirection_flags
      · rw [dictGet_augment _ _ _ _ _ (by decide) (by decide) (by decide)]
      · rw [dictGet_augment _ _ _ _ _ (by decide) (by decide) (by decide)]
    · intro h1 h2 h3
      unfold LogisticProbe.save augmentInfo
      simp [h1, h2, h3]
  · intro p d hd
    obtain ⟨cfg, dir, pname⟩ := p
    have hd2 : dir = some d := hd
    subst hd2
    exact ⟨_, rfl, rfl⟩
  · intro p d hd
    obtain ⟨cfg, dir, pname⟩ := p
    have hd2 : dir = some d := hd
    subst hd2
    exact ⟨_, rfl, rfl⟩
  · intro p d hd
    obtain ⟨cfg, dir, pname⟩ := p
    have hd2 : dir = some d := hd
    subst hd2
    exact ⟨_, rfl, rfl⟩

/-- Trained `LinearProbe` with no buffers at all. -/
def c6wProbe : LinearProbe :=
  { config := { base := { input_size := 2 } }
    weight := [[1, 2]]
    bias := none
    feature_mean := none
    feature_std := none
    name := "w" }

/-- Trained `LogisticProbe` with no buffers. -/
def c6wLogProbe : LogisticProbe :=
  { config := { base := { input_size := 2 } }
    weight := [[1, 2]]
    bias := none
    feature_mean := none
    feature_std := none
    name := "w" }

/-- Trained `KMeansProbe`. -/
def c6wKmProbe : KMeansProbe :=
  { config := { base := { input_size := 2 } }
    direction := some [1, 2]
    name := "w" }

/-- Trained `PCAProbe`. -/
def c6wPcaProbe : PCAProbe :=
  { config := { base := { input_size := 2 } }
    direction := some [1, 2]
    name := "w" }

/-- Trained `MeanDifferenceProbe`. -/
def c6wMdProbe : MeanDifferenceProbe :=
  { config := { base := { input_size := 2 } }
    direction := some [1, 2]
    name := "w" }

/-- Witness for the amended C6 at concrete trained probes of all five
variants. -/
theorem c6_save_amended_witness :
    (LinearProbe.save c6wProbe).1.get_direction = c6wProbe.get_direction ∧
    (LinearProbe.save c6wProbe).1.config.base.additional_info =
      c6wProbe.config.base.additional_info ∧
    (LogisticProbe.save c6wLogProbe).1.get_direction
      = c6wLogProbe.get_direction ∧
    (LogisticProbe.save c6wLogProbe).1.config.base.additional_info =
      c6wLogProbe.config.base.additional_info ∧
    (∃ f, KMeansProbe.save c6wKmProbe = Except.ok (c6wKmProbe, f) ∧
      f.direction = [1, 2]) ∧
    (∃ f, PCAProbe.save c6wPcaProbe = Except.ok (c6wPcaProbe, f) ∧
      f.direction = [1, 2]) ∧
    (∃ f, MeanDifferenceProbe.save c6wMdProbe = Except.ok (c6wMdProbe, f) ∧
      f.direction = [1, 2]) :=
  ⟨(c6_save_amended.1 c6wProbe).1,
   (c6_save_amended.1 c6wProbe).2 rfl rfl rfl,
   (c6_save_amended.2.1 c6wLogProbe).1,
   (c6_save_amended.2.1 c6wLogProbe).2 rfl rfl rfl,
   c6_save_amended.2.2.1 c6wKmProbe [1, 2] rfl,
   c6_save_amended.2.2.2.1 c6wPcaProbe [1, 2] rfl,
   c6_save_amended.2.2.2.2 c6wMdProbe [1, 2] rfl⟩

/-- Trained single-output `LinearProbe` with standardization buffers, raw
weight `[[1, 1]]`, `feature_std = [2, 2]`, `normalize_weights = False`, and no
idempotence flags set — the state reached by training this probe with
standardization. -/
def c1Probe : LinearProbe :=
  { config := { base := { input_size := 2 }, normalize_weights := false }
    weight := [[1, 1]]
    bias := none
    feature_mean := some [0, 0]
    feature_std := some [2, 2]
    name := "p" }

/-- C1: at the failing input `c1Probe`, `get_direction` returns the unscaled
`[1/2, 1/2]`, but `save_json` writes the RAW weight `[1, 1]` while marking
`is_normalized`/`is_unscaled` true; the reload honors the flags, so
`get_direction` after the round trip returns `[1, 1]` — not within `1e-5` of
the pre-save direction.  (The claim's flags-after-reload part does hold; the
round-trip-equality and vector-written-is-transformed parts fail.) -/
theorem c1_save_json_roundtrip_bug :
    LinearProbe.get_direction c1Probe = DirResult.vec [1 / 2, 1 / 2] ∧
    jsonVectorOf (LinearProbe.save_json c1Probe) = [1, 1] ∧
    (LinearProbe.load_json (LinearProbe.save_json c1Probe)).map
        LinearProbe.get_direction
      = Except.ok (DirResult.vec [1, 1]) ∧
    (LinearProbe.load_json (LinearProbe.save_json c1Probe)).map
        (fun q => (truthy (dictGet q.config.base.additional_info "is_normalized"),
                   truthy (dictGet q.config.base.additional_info "is_unscaled")))
      = Except.ok (true, true) ∧
    ¬ withinTol [1, 1] [1 / 2, 1 / 2] (1 / 10 ^ 5) := by
  refine ⟨?_, rfl, rfl, rfl, ?_⟩
  · simp [c1Probe, LinearProbe.get_direction, gradDirection, gradUnscaled,
      truthy, dictGet, unscaleRows, squeeze0]
  · intro h
    have h0 := h.2 0
    simp only [List.getD_cons_zero] at h0
    rw [abs_of_nonneg (by norm_num)] at h0
    norm_num at h0

/-- A trained `MeanDifferenceProbe` (fitted direction `[1, 2]`). -/
def c2Probe : MeanDifferenceProbe :=
  { config := { base := { input_size := 2 } }
    direction := some [1, 2]
    name := "p" }

/-- C2: at the failing input `c2Probe`, the binary round trip loses the
direction.  `save` writes the direction into the container but always also
writes a `state_dict` key; `load` therefore takes the `load_state_dict`
branch, and because a closed-form probe's direction is a plain attribute (not
parameter state), the loaded probe has `direction = None` and raises
NotFitted from `get_direction` — not a probe with P's direction in the
trained state.  (`save` itself does return the direction and leaves the probe
unchanged, as the last conjunct records.) -/
theorem c2_binary_roundtrip_bug :
    (MeanDifferenceProbe.save c2Probe).map (fun pr => pr.2.direction)
      = Except.ok [1, 2] ∧
    (MeanDifferenceProbe.save c2Probe).map
        (fun pr => (MeanDifferenceProbe.load pr.2).direction)
      = Except.ok none ∧
    (MeanDifferenceProbe.save c2Probe).map
        (fun pr => (MeanDifferenceProbe.load pr.2).get_direction)
      = Except.ok (Except.error ProbeError.notFitted) ∧
    (MeanDifferenceProbe.save c2Probe).map (fun pr => pr.1)
      = Except.ok c2Probe :=
  ⟨rfl, rfl, rfl, rfl⟩

/-- C3: every legacy JSON shape fails to load on every variant.  For
`MeanDifferenceProbe` (whose constructor tolerates the bare `ProbeConfig` the
legacy branch builds) the load still dies with `UnboundLocalError` when line
297 reads the never-assigned local `metadata`; for `LinearProbe` (and the
other variants whose constructors read subclass config fields) it dies earlier
with `AttributeError` on the bare `ProbeConfig`.  No legacy payload ever
yields a probe. -/
theorem c3_legacy_json_bug :
    MeanDifferenceProbe.load_json (JsonDoc.legacyDirection [1, 2])
      = Except.error ProbeError.nameError ∧
    MeanDifferenceProbe.load_json (JsonDoc.legacyVectors [[1, 2], [3, 4]])
      = Except.error ProbeError.nameError ∧
    MeanDifferenceProbe.load_json (JsonDoc.bareList [1, 2])
      = Except.error ProbeError.nameError ∧
    LinearProbe.load_json (JsonDoc.legacyDirection [1, 2])
      = Except.error ProbeError.attributeError ∧
    LinearProbe.load_json (JsonDoc.legacyVectors [[1, 2]])
      = Except.error ProbeError.attributeError ∧
    LinearProbe.load_json (JsonDoc.bareList [1, 2])
      = Except.error ProbeError.attributeError :=
  ⟨rfl, rfl, rfl, rfl, rfl, rfl⟩

/-- A trained two-output `LinearProbe` over 3-dimensional activations. -/
def c4Probe : LinearProbe :=
  { config := { base := { input_size := 3 }, normalize_weights := false,
                output_size := 2 }
    weight := [[1, 0, 0], [0, 1, 0]]
    bias := none
    feature_mean := none
    feature_std := none
    name := "p" }

/-- C4: for a gradient probe with `output_size = 2`, `get_direction` returns a
2-D `[2, 3]` tensor, and `encode` — whose einsum subscript `d` admits only a
1-D direction — raises instead of returning one score per output direction.
The per-direction dot products the claim expects (`1` and `2` on the row
`[1, 2, 3]`) are perfectly well defined; `encode` just never produces them. -/
theorem c4_multi_output_encode_bug :
    c4Probe.config.output_size = 2 ∧
    LinearProbe.get_direction c4Probe = DirResult.mat [[1, 0, 0], [0, 1, 0]] ∧
    LinearProbe.encode c4Probe [[1, 2, 3]] = Except.error ProbeError.einsumNdim ∧
    dot [1, 2, 3] [1, 0, 0] = 1 ∧ dot [1, 2, 3] [0, 1, 0] = 2 := by
  refine ⟨rfl, rfl, rfl, ?_, ?_⟩ <;> norm_num [dot]

lemma sumSq_nonneg (v : Vec) : 0 ≤ sumSq v := by
  unfold sumSq
  induction v with
  | nil => simp
  | cons a t ih =>
    simp only [List.map_cons, List.sum_cons]
    exact add_nonneg (mul_self_nonneg a) ih

lemma sumSq_map_div (v : Vec) (s : ℝ) :
    sumSq (v.map (fun a => a / s)) = sumSq v / (s * s) := by
  unfold sumSq
  induction v with
  | nil => simp
  | cons a t ih =>
    simp only [List.map_cons, List.sum_cons]
    rw [ih, div_mul_div_comm, div_add_div_same]

lemma l2norm_map_div (v : Vec) (s : ℝ) (hs : 0 ≤ s) :
    l2norm (v.map (fun a => a / s)) = l2norm v / s := by
  unfold l2norm
  rw [sumSq_map_div, Real.sqrt_div (sumSq_nonneg v), Real.sqrt_mul_self hs]

lemma l2normMat_singleton (v : Vec) : l2normMat [v] = l2norm v := by
  simp [l2normMat, l2norm]

/-- The epsilon-guarded normalization shared by every variant maps a vector of
norm at least `1e-4` to a vector whose norm is within `1e-4` of `1`. -/
lemma norm_normalizeEps (d : Vec) (h : 1 / 10 ^ 4 ≤ l2norm d) :
    |l2norm (normalizeEps d) - 1| ≤ 1 / 10 ^ 4 := by
  have hn0 : (0 : ℝ) < l2norm d := lt_of_lt_of_le (by norm_num) h
  have hne : (0 : ℝ) < l2norm d + 1 / 10 ^ 8 := by linarith
  unfold normalizeEps
  rw [l2norm_map_div d _ hne.le]
  have hle : l2norm d / (l2norm d + 1 / 10 ^ 8) ≤ 1 := by
    rw [div_le_one hne]; linarith
  rw [abs_sub_comm, abs_of_nonneg (by linarith), one_sub_div hne.ne',
    add_sub_cancel_left, div_le_iff₀ hne]
  linarith

/-- A `MeanDifferenceProbe` with the default `normalize_weights = True`. -/
def c5Probe : MeanDifferenceProbe :=
  { config := { base := { input_size := 2 } }
    direction := none
    name := "p" }

/-- C5 counterexample: a trained state reached through the fit path with
`normalize_weights = true` whose direction norm is `0`, not within `1e-4` of
`1`.  Fitting on data whose two classes share the same vector yields the raw
direction `[0, 0]`; the `+1e-8` epsilon keeps the division defined, so the
stored normalized direction stays `[0, 0]`, of L2 norm `0`. -/
theorem c5_norm_counterexample :
    c5Probe.config.normalize_weights = true ∧
    (c5Probe.fit [[1, 0], [1, 0]] [1, 0]).direction = some [0, 0] ∧
    (c5Probe.fit [[1, 0], [1, 0]] [1, 0]).get_direction = Except.ok [0, 0] ∧
    ¬ |l2norm [(0 : ℝ), 0] - 1| ≤ 1 / 10 ^ 4 := by
  have hfit : (c5Probe.fit [[1, 0], [1, 0]] [1, 0]).direction = some [0, 0] := by
    norm_num [MeanDifferenceProbe.fit, c5Probe, meanDiffRaw, selectRows,
      vmean, vsum, vecSub, normalizeEps]
  have hl2 : l2norm [(0 : ℝ), 0] = 0 := by
    norm_num [l2norm, sumSq, Real.sqrt_zero]
  refine ⟨rfl, hfit, ?_, ?_⟩
  · unfold MeanDifferenceProbe.get_direction
    rw [hfit]
  · rw [hl2, show (0 : ℝ) - 1 = -1 by norm_num, abs_neg, abs_one]
    norm_num

lemma gradDirection_single (w : List Vec) (fs : Option Vec) (ai : AInfo)
    (w1 : Vec)
    (hflag : truthy (dictGet ai "is_normalized") = false)
    (hw : gradUnscaled w fs ai = [w1]) :
    gradDirection w fs true 1 ai = DirResult.vec (normalizeEps w1) := by
  simp only [gradDirection, hw, hflag]
  simp [squeeze0, l2normMat_singleton, normalizeEps]

lemma gradDirection_multi (w : List Vec) (fs : Option Vec) (ai : AInfo)
    (osize : Nat) (hos : 1 < osize)
    (hflag : truthy (dictGet ai "is_normalized") = false) :
    gradDirection w fs true osize ai
      = DirResult.mat ((gradUnscaled w fs ai).map normalizeEps) := by
  have hne1 : ¬ (osize = 1) := by omega
  simp [gradDirection, hflag, hos, hne1]

/-- C5 amended: restricted by what the counterexample forces — whenever the
pre-normalization (post-unscaling) direction has L2 norm at least `1e-4`
(per output row for multi-output gradient probes), the direction stored or
returned under `normalize_weights = true` has L2 norm within `1e-4` of `1`
(per output row for multi-output).  Stated for every variant's
epsilon-normalization site: the `MeanDifferenceProbe.fit` path in full; the
gradient `get_direction` of `LinearProbe` and `LogisticProbe`, single- and
multi-output, over any weight/buffer state whose idempotence flags are unset
(no training-path code ever sets them); the classical
`SklearnLogisticProbe.get_direction` (post-unscaling solver coefficients);
and the post-solver direction computations of `KMeansProbe.fit` and
`PCAProbe.fit`. -/
theorem c5_norm_amended :
    (∀ (p : MeanDifferenceProbe) (x : List Vec) (y : List ℝ),
      p.config.normalize_weights = true →
      1 / 10 ^ 4 ≤ l2norm (meanDiffRaw x y) →
      |l2norm (((p.fit x y).direction).getD []) - 1| ≤ 1 / 10 ^ 4) ∧
    (∀ (p : LinearProbe) (w1 : Vec),
      p.config.normalize_weights = true →
      p.config.output_size = 1 →
      truthy (dictGet p.config.base.additional_info "is_normalized") = false →
      gradUnscaled p.weight p.feature_std p.config.base.additional_info
        = [w1] →
      1 / 10 ^ 4 ≤ l2norm w1 →
      |l2norm (dirVec p.get_direction) - 1| ≤ 1 / 10 ^ 4) ∧
    (∀ (p : LogisticProbe) (w1 : Vec),
      p.config.normalize_weights = true →
      p.config.output_size = 1 →
      truthy (dictGet p.config.base.additional_info "is_normalized") = false →
      gradUnscaled p.weight p.feature_std p.config.base.additional_info
        = [w1] →
      1 / 10 ^ 4 ≤ l2norm w1 →
      |l2norm (dirVec p.get_direction) - 1| ≤ 1 / 10 ^ 4) ∧
    (∀ p : LinearProbe,
      p.config.normalize_weights = true →
      1 < p.config.output_size →
      truthy (dictGet p.config.base.additional_info "is_normalized") = false →
      (∀ row ∈ gradUnscaled p.weight p.feature_std
          p.config.base.additional_info, 1 / 10 ^ 4 ≤ l2norm row) →
      ∃ m, p.get_direction = DirResult.mat m ∧
        ∀ row ∈ m, |l2norm row - 1| ≤ 1 / 10 ^ 4) ∧
    (∀ p : LogisticProbe,
      p.config.normalize_weights = true →
      1 < p.config.output_size →
      truthy (dictGet p.config.base.additional_info "is_normalized") = false →
      (∀ row ∈ gradUnscaled p.weight p.feature_std
          p.config.base.additional_info, 1 / 10 ^ 4 ≤ l2norm row) →
      ∃ m, p.get_direction = DirResult.mat m ∧
        ∀ row ∈ m, |l2norm row - 1| ≤ 1 / 10 ^ 4) ∧
    (∀ p : SklearnLogisticProbe,
      p.config.normalize_weights = true →
      1 / 10 ^ 4 ≤ l2norm p.unscaledCoef →
      |l2norm p.get_direction - 1| ≤ 1 / 10 ^ 4) ∧
    (∀ (cfg : KMeansProbeConfig) (pos neg : Vec),
      cfg.normalize_weights = true →
      1 / 10 ^ 4 ≤ l2norm (vecSub pos neg) →
      |l2norm (centroidsToDirection cfg pos neg) - 1| ≤ 1 / 10 ^ 4) ∧
    (∀ (cfg : PCAProbeConfig) (c : Vec),
      cfg.normalize_weights = true →
      1 / 10 ^ 4 ≤ l2norm c →
      |l2norm (componentToDirection cfg c) - 1| ≤ 1 / 10 ^ 4) := by
  refine ⟨?_, ?_, ?_, ?_, ?_, ?_, ?_, ?_⟩
  · intro p x y hn h
    simp only [MeanDifferenceProbe.fit, hn, if_true, Option.getD_some]
    exact norm_normalizeEps _ h
  · intro p w1 hn hos hflag hw h
    unfold LinearProbe.get_direction
    rw [hn, hos, gradDirection_single p.weight p.feature_std
      p.config.base.additional_info w1 hflag hw]
    exact norm_normalizeEps w1 h
  · intro p w1 hn hos hflag hw h
    unfold LogisticProbe.get_direction
    rw [hn, hos, gradDirection_single p.weight p.feature_std
      p.config.base.additional_info w1 hflag hw]
    exact norm_normalizeEps w1 h
  · intro p hn hos hflag hrows
    unfold LinearProbe.get_direction
    rw [hn, gradDirection_multi p.weight p.feature_std
      p.config.base.additional_info p.config.output_size hos hflag]
    refine ⟨_, rfl, ?_⟩
    intro row hrow
    obtain ⟨u, hu, hu2⟩ := List.mem_map.mp hrow
    rw [← hu2]
    exact norm_normalizeEps u (hrows u hu)
  · intro p hn hos hflag hrows
    unfold LogisticProbe.get_direction
    rw [hn, gradDirection_multi p.weight p.feature_std
      p.config.base.additional_info p.config.output_size hos hflag]
    refine ⟨_, rfl, ?_⟩
    intro row hrow
    obtain ⟨u, hu, hu2⟩ := List.mem_map.mp hrow
    rw [← hu2]
    exact norm_normalizeEps u (hrows u hu)
  · intro p hn h
    unfold SklearnLogisticProbe.get_direction
    simp only [hn, if_true]
    exact norm_normalizeEps _ h
  · intro cfg pos neg hn h
    simp only [centroidsToDirection, hn, if_true]
    exact norm_normalizeEps _ h
  · intro cfg c hn h
    simp only [componentToDirection, hn, if_true]
    exact norm_normalizeEps _ h

/-- A `MeanDifferenceProbe` with default config, for the C5 witness. -/
def c5wProbe : MeanDifferenceProbe :=
  { config := { base := { input_size := 2 } }
    direction := none
    name := "w" }

/-- A trained single-output `LinearProbe` with standardization buffers
(`feature_std = [1, 1]`, so the unscaled direction is `[3, 4]`). -/
def c5wLinProbe : LinearProbe :=
  { config := { base := { input_size := 2 } }
    weight := [[3, 4]]
    bias := none
    feature_mean := some [0, 0]
    feature_std := some [1, 1]
    name := "w" }

/-- A trained single-output `LogisticProbe` with the same buffers. -/
def c5wLogProbe : LogisticProbe :=
  { config := { base := { input_size := 2 } }
    weight := [[3, 4]]
    bias := some [0]
    feature_mean := some [0, 0]
    feature_std := some [1, 1]
    name := "w" }

/-- A trained two-output `LinearProbe` (rows `[3, 4]` and `[0, 5]`). -/
def c5wLinMultiProbe : LinearProbe :=
  { config := { base := { input_size := 2 }, output_size := 2 }
    weight := [[3, 4], [0, 5]]
    bias := none
    feature_mean := none
    feature_std := none
    name := "w" }

/-- A trained two-output `LogisticProbe`. -/
def c5wLogMultiProbe : LogisticProbe :=
  { config := { base := { input_size := 2 }, output_size := 2 }
    weight := [[3, 4], [0, 5]]
    bias := none
    feature_mean := none
    feature_std := none
    name := "w" }

/-- A fitted `SklearnLogisticProbe` (solver coefficients `[3, 4]`). -/
def c5wSkProbe : SklearnLogisticProbe :=
  { config := { base := { input_size := 2 }, standardize := false }
    coef := [3, 4]
    scale := none
    name := "w" }

/-- Witness for the amended C5 on concrete non-degenerate states of every
variant (pre-normalization directions `[3, 4]` and `[0, 5]`, norms `5`). -/
theorem c5_norm_amended_witness :
    1 / 10 ^ 4 ≤ l2norm (meanDiffRaw [[3, 4], [0, 0]] [1, 0]) ∧
    |l2norm (((c5wProbe.fit [[3, 4], [0, 0]] [1, 0]).direction).getD []) - 1|
      ≤ 1 / 10 ^ 4 ∧
    |l2norm (dirVec c5wLinProbe.get_direction) - 1| ≤ 1 / 10 ^ 4 ∧
    |l2norm (dirVec c5wLogProbe.get_direction) - 1| ≤ 1 / 10 ^ 4 ∧
    (∃ m, c5wLinMultiProbe.get_direction = DirResult.mat m ∧
      ∀ row ∈ m, |l2norm row - 1| ≤ 1 / 10 ^ 4) ∧
    (∃ m, c5wLogMultiProbe.get_direction = DirResult.mat m ∧
      ∀ row ∈ m, |l2norm row - 1| ≤ 1 / 10 ^ 4) ∧
    |l2norm c5wSkProbe.get_direction - 1| ≤ 1 / 10 ^ 4 ∧
    |l2norm (centroidsToDirection { base := { input_size := 2 } } [3, 4] [0, 0])
        - 1| ≤ 1 / 10 ^ 4 ∧
    |l2norm (componentToDirection { base := { input_size := 2 } } [3, 4]) - 1|
      ≤ 1 / 10 ^ 4 := by
  have h34 : l2norm [(3 : ℝ), 4] = 5 := by
    have hs : sumSq [(3 : ℝ), 4] = 25 := by norm_num [sumSq]
    rw [l2norm, hs, show (25 : ℝ) = 5 * 5 by norm_num]
    exact Real.sqrt_mul_self (by norm_num)
  have h05 : l2norm [(0 : ℝ), 5] = 5 := by
    have hs : sumSq [(0 : ℝ), 5] = 25 := by norm_num [sumSq]
    rw [l2norm, hs, show (25 : ℝ) = 5 * 5 by norm_num]
    exact Real.sqrt_mul_self (by norm_num)
  have hraw : meanDiffRaw [[3, 4], [0, 0]] [1, 0] = [3, 4] := by
    norm_num [meanDiffRaw, selectRows, vmean, vsum, vecSub]
  have hsub : vecSub [(3 : ℝ), 4] [0, 0] = [3, 4] := by
    norm_num [vecSub]
  have hunsc : gradUnscaled c5wLinProbe.weight c5wLinProbe.feature_std
      c5wLinProbe.config.base.additional_info = [[3, 4]] := by
    norm_num [c5wLinProbe, gradUnscaled, unscaleRows, truthy, dictGet]
  have hunscLog : gradUnscaled c5wLogProbe.weight c5wLogProbe.feature_std
      c5wLogProbe.config.base.additional_info = [[3, 4]] := by
    norm_num [c5wLogProbe, gradUnscaled, unscaleRows, truthy, dictGet]
  have hmrows : ∀ row ∈ gradUnscaled c5wLinMultiProbe.weight
      c5wLinMultiProbe.feature_std c5wLinMultiProbe.config.base.additional_info,
      1 / 10 ^ 4 ≤ l2norm row := by
    intro row hrow
    simp only [c5wLinMultiProbe, gradUnscaled, List.mem_cons,
      List.not_mem_nil, or_false] at hrow
    rcases hrow with h | h
    · rw [h, h34]; norm_num
    · rw [h, h05]; norm_num
  refine ⟨?_, ?_, ?_, ?_, ?_, ?_, ?_, ?_, ?_⟩
  · rw [hraw, h34]; norm_num
  · exact c5_norm_amended.1 c5wProbe [[3, 4], [0, 0]] [1, 0] rfl
      (by rw [hraw, h34]; norm_num)
  · exact c5_norm_amended.2.1 c5wLinProbe [3, 4] rfl rfl rfl hunsc
      (by rw [h34]; norm_num)
  · exact c5_norm_amended.2.2.1 c5wLogProbe [3, 4] rfl rfl rfl hunscLog
      (by rw [h34]; norm_num)
  · exact c5_norm_amended.2.2.2.1 c5wLinMultiProbe rfl
      (by norm_num [c5wLinMultiProbe]) rfl hmrows
  · exact c5_norm_amended.2.2.2.2.1 c5wLogMultiProbe rfl
      (by norm_num [c5wLogMultiProbe]) rfl hmrows
  · exact c5_norm_amended.2.2.2.2.2.1 c5wSkProbe rfl
      (by show 1 / 10 ^ 4 ≤ l2norm [(3 : ℝ), 4]; rw [h34]; norm_num)
  · exact c5_norm_amended.2.2.2.2.2.2.1 _ [3, 4] [0, 0] rfl
      (by rw [hsub, h34]; norm_num)
  · exact c5_norm_amended.2.2.2.2.2.2.2 _ [3, 4] rfl (by rw [h34]; norm_num)

lemma selectRows_all_eq (x : List Vec) (y : List ℝ) (c : ℝ) (v : Vec)
    (h : ∀ pr ∈ x.zip y, pr.2 = c → pr.1 = v) :
    ∀ u ∈ selectRows x y c, u = v := by
  induction x generalizing y with
  | nil => intro u hu; simp [selectRows] at hu
  | cons a xs ih =>
    cases y with
    | nil => intro u hu; simp [selectRows] at hu
    | cons b ys =>
      intro u hu
      simp only [selectRows] at hu
      by_cases hb : b = c
      · rw [if_pos hb] at hu
        rcases List.mem_cons.mp hu with h1 | h1
        · rw [h1]
          exact h (a, b) (by simp [List.zip_cons_cons]) hb
        · exact ih ys (fun pr hpr hc =>
            h pr (by simp [List.zip_cons_cons, hpr]) hc) u h1
      · rw [if_neg hb] at hu
        exact ih ys (fun pr hpr hc =>
          h pr (by simp [List.zip_cons_cons, hpr]) hc) u hu

lemma selectRows_ne_nil (x : List Vec) (y : List ℝ) (c : ℝ)
    (h : ∃ pr ∈ x.zip y, pr.2 = c) : selectRows x y c ≠ [] := by
  induction x generalizing y with
  | nil => simp at h
  | cons a xs ih =>
    cases y with
    | nil => simp at h
    | cons b ys =>
      obtain ⟨pr, hpr, hc⟩ := h
      rw [List.zip_cons_cons] at hpr
      simp only [selectRows]
      rcases List.mem_cons.mp hpr with h1 | h1
      · have hb : b = c := by rw [h1] at hc; exact hc
        rw [if_pos hb]
        exact List.cons_ne_nil _ _
      · by_cases hb : b = c
        · rw [if_pos hb]; exact List.cons_ne_nil _ _
        · rw [if_neg hb]; exact ih ys ⟨pr, h1, hc⟩

lemma zipWith_add_mul (v : Vec) (n : ℝ) :
    List.zipWith (fun a b => a + b) v (v.map (fun a => n * a))
      = v.map (fun a => (n + 1) * a) := by
  induction v with
  | nil => rfl
  | cons a t ih =>
    simp only [List.map_cons, List.zipWith_cons_cons, ih]
    congr 1
    ring

lemma vsum_const (rows : List Vec) (v : Vec) (hne : rows ≠ [])
    (h : ∀ u ∈ rows, u = v) :
    vsum rows = v.map (fun a => (rows.length : ℝ) * a) := by
  induction rows with
  | nil => exact absurd rfl hne
  | cons r rest ih =>
    have hr : r = v := h r (by simp)
    cases rest with
    | nil =>
      subst hr
      simp [vsum]
    | cons r2 rest2 =>
      have ht : vsum (r2 :: rest2)
          = v.map (fun a => ((r2 :: rest2).length : ℝ) * a) :=
        ih (by simp) (fun u hu => h u (List.mem_cons_of_mem _ hu))
      subst hr
      show List.zipWith (fun a b => a + b) r (vsum (r2 :: rest2)) = _
      rw [ht, zipWith_add_mul]
      congr 1
      funext a
      push_cast [List.length_cons]
      ring

lemma vmean_const (rows : List Vec) (v : Vec) (hne : rows ≠ [])
    (h : ∀ u ∈ rows, u = v) : vmean rows = v := by
  have hlen : ((rows.length : ℝ)) ≠ 0 := by
    have hne2 : rows.length ≠ 0 := by
      simpa [List.length_eq_zero] using hne
    exact_mod_cast hne2
  rw [vmean, vsum_const rows v hne h, List.map_map]
  have hfun : ((fun a : ℝ => a / (rows.length : ℝ)) ∘
      fun a : ℝ => (rows.length : ℝ) * a) = id := by
    funext a
    simp [Function.comp, mul_div_cancel_left₀ _ hlen]
  rw [hfun, List.map_id]

/-- C7: with `normalize_weights = false`, fitting a `MeanDifferenceProbe` on
data with at least one row of each class, whose label-1 rows all equal `v1`
and label-0 rows all equal `v0`, yields exactly the direction `v1 - v0`. -/
theorem c7_mean_difference_exact (p : MeanDifferenceProbe) (x : List Vec)
    (y : List ℝ) (v0 v1 : Vec)
    (hnw : p.config.normalize_weights = false)
    (h1 : ∀ pr ∈ x.zip y, pr.2 = 1 → pr.1 = v1)
    (h0 : ∀ pr ∈ x.zip y, pr.2 = 0 → pr.1 = v0)
    (e1 : ∃ pr ∈ x.zip y, pr.2 = 1)
    (e0 : ∃ pr ∈ x.zip y, pr.2 = 0) :
    (p.fit x y).get_direction = Except.ok (vecSub v1 v0) := by
  have hp : vmean (selectRows x y 1) = v1 :=
    vmean_const _ _ (selectRows_ne_nil x y 1 e1) (selectRows_all_eq x y 1 v1 h1)
  have hn : vmean (selectRows x y 0) = v0 :=
    vmean_const _ _ (selectRows_ne_nil x y 0 e0) (selectRows_all_eq x y 0 v0 h0)
  simp only [MeanDifferenceProbe.fit, MeanDifferenceProbe.get_direction,
    meanDiffRaw, hnw, Bool.false_eq_true, if_false]
  rw [hp, hn]

/-- A `MeanDifferenceProbe` configured with `normalize_weights = false`. -/
def c7Probe : MeanDifferenceProbe :=
  { config := { base := { input_size := 2 }, normalize_weights := false }
    direction := none
    name := "w" }

/-- Witness for C7 on concrete two-row data. -/
theorem c7_mean_difference_exact_witness :
    (c7Probe.fit [[5, 6], [1, 2]] [1, 0]).get_direction
      = Except.ok (vecSub [5, 6] [1, 2]) := by
  apply c7_mean_difference_exact c7Probe [[5, 6], [1, 2]] [1, 0] [1, 2] [5, 6]
    rfl
  · intro pr hpr hc
    simp at hpr
    rcases hpr with h | h
    · simp [h]
    · rw [h] at hc
      norm_num at hc
  · intro pr hpr hc
    simp at hpr
    rcases hpr with h | h
    · rw [h] at hc
      norm_num at hc
    · simp [h]
  · exact ⟨([5, 6], 1), by simp, rfl⟩
  · exact ⟨([1, 2], 0), by simp, rfl⟩

/-- C9: freshly constructed clustering/PCA/mean-difference probes are
unfitted; in that state `get_direction`, `forward` and `encode` all raise
NotFitted (the error from `get_direction` propagates through `encode`); and
`encode` on a gradient probe never produces a NotFitted error in any state —
any error it raises is a shape error, never NotFitted. -/
theorem c9_not_fitted_errors :
    (∀ cfg : KMeansProbeConfig, (mkKMeansProbe cfg).direction = none) ∧
    (∀ cfg : PCAProbeConfig, (mkPCAProbe cfg).direction = none) ∧
    (∀ cfg : MeanDiffProbeConfig, (mkMeanDifferenceProbe cfg).direction = none) ∧
    (∀ p : KMeansProbe, p.direction = none →
      p.get_direction = Except.error ProbeError.notFitted ∧
      (∀ x, p.forward x = Except.error ProbeError.notFitted) ∧
      (∀ acts, p.encode acts = Except.error ProbeError.notFitted)) ∧
    (∀ p : PCAProbe, p.direction = none →
      p.get_direction = Except.error ProbeError.notFitted ∧
      (∀ x, p.forward x = Except.error ProbeError.notFitted) ∧
      (∀ acts, p.encode acts = Except.error ProbeError.notFitted)) ∧
    (∀ p : MeanDifferenceProbe, p.direction = none →
      p.get_direction = Except.error ProbeError.notFitted ∧
      (∀ x, p.forward x = Except.error ProbeError.notFitted) ∧
      (∀ acts, p.encode acts = Except.error ProbeError.notFitted)) ∧
    (∀ (p : LinearProbe) (acts : List Vec) (e : ProbeError),
      p.encode acts = Except.error e → e ≠ ProbeError.notFitted) ∧
    (∀ (p : LogisticProbe) (acts : List Vec) (e : ProbeError),
      p.encode acts = Except.error e → e ≠ ProbeError.notFitted) := by
  refine ⟨fun cfg => rfl, fun cfg => rfl, fun cfg => rfl, ?_, ?_, ?_, ?_, ?_⟩
  · intro p hd
    exact ⟨by simp [KMeansProbe.get_direction, hd],
      fun x => by simp [KMeansProbe.forward, hd],
      fun acts => by
        simp [KMeansProbe.encode, KMeansProbe.get_direction, hd, baseEncode,
          Except.map]⟩
  · intro p hd
    exact ⟨by simp [PCAProbe.get_direction, hd],
      fun x => by simp [PCAProbe.forward, hd],
      fun acts => by
        simp [PCAProbe.encode, PCAProbe.get_direction, hd, baseEncode,
          Except.map]⟩
  · intro p hd
    exact ⟨by simp [MeanDifferenceProbe.get_direction, hd],
      fun x => by simp [MeanDifferenceProbe.forward, hd],
      fun acts => by
        simp [MeanDifferenceProbe.encode, MeanDifferenceProbe.get_direction,
          hd, baseEncode, Except.map]⟩
  · intro p acts e h
    have h2 : baseEncode (Except.ok p.get_direction) acts = Except.error e := h
    cases hgd : p.get_direction with
    | vec v =>
      rw [hgd] at h2
      have h3 : einsumVecDot acts v = Except.error e := h2
      unfold einsumVecDot at h3
      split at h3
      · exact absurd h3 (by simp)
      · intro he
        rw [he] at h3
        simp at h3
    | mat m =>
      rw [hgd] at h2
      intro he
      rw [he] at h2
      have h3 : (Except.error ProbeError.einsumNdim : Except ProbeError (List ℝ))
          = Except.error ProbeError.notFitted := h2
      simp at h3
  · intro p acts e h
    have h2 : baseEncode (Except.ok p.get_direction) acts = Except.error e := h
    cases hgd : p.get_direction with
    | vec v =>
      rw [hgd] at h2
      have h3 : einsumVecDot acts v = Except.error e := h2
      unfold einsumVecDot at h3
      split at h3
      · exact absurd h3 (by simp)
      · intro he
        rw [he] at h3
        simp at h3
    | mat m =>
      rw [hgd] at h2
      intro he
      rw [he] at h2
      have h3 : (Except.error ProbeError.einsumNdim : Except ProbeError (List ℝ))
          = Except.error ProbeError.notFitted := h2
      simp at h3

/-- Default `KMeansProbeConfig` over 2-dimensional activations. -/
def c9kmCfg : KMeansProbeConfig := { base := { input_size := 2 } }

/-- Default `PCAProbeConfig`. -/
def c9pcaCfg : PCAProbeConfig := { base := { input_size := 2 } }

/-- Default `MeanDiffProbeConfig`. -/
def c9mdCfg : MeanDiffProbeConfig := { base := { input_size := 2 } }

/-- A gradient probe in an arbitrary (untrained-weight) state. -/
def c9linProbe : LinearProbe :=
  { config := { base := { input_size := 2 } }
    weight := [[1, 2]]
    bias := none
    feature_mean := none
    feature_std := none
    name := "w" }

/-- A logistic probe with its zero-initialized weight. -/
def c9logProbe : LogisticProbe :=
  { config := { base := { input_size := 2 } }
    weight := [[0, 0]]
    bias := some [0]
    feature_mean := none
    feature_std := none
    name := "w" }

/-- Witness for C9 at freshly constructed probes and concrete activations. -/
theorem c9_not_fitted_errors_witness :
    (mkKMeansProbe c9kmCfg).direction = none ∧
    (mkKMeansProbe c9kmCfg).get_direction = Except.error ProbeError.notFitted ∧
    (mkKMeansProbe c9kmCfg).forward [[1, 2]]
      = Except.error ProbeError.notFitted ∧
    (mkKMeansProbe c9kmCfg).encode [[1, 2]]
      = Except.error ProbeError.notFitted ∧
    (mkPCAProbe c9pcaCfg).encode [[1, 2]]
      = Except.error ProbeError.notFitted ∧
    (mkMeanDifferenceProbe c9mdCfg).encode [[1, 2]]
      = Except.error ProbeError.notFitted ∧
    ProbeError.einsumSize ≠ ProbeError.notFitted := by
  refine ⟨c9_not_fitted_errors.1 c9kmCfg, ?_, ?_, ?_, ?_, ?_, ?_⟩
  · exact (c9_not_fitted_errors.2.2.2.1 (mkKMeansProbe c9kmCfg)
      (c9_not_fitted_errors.1 c9kmCfg)).1
  · exact (c9_not_fitted_errors.2.2.2.1 (mkKMeansProbe c9kmCfg)
      (c9_not_fitted_errors.1 c9kmCfg)).2.1 [[1, 2]]
  · exact (c9_not_fitted_errors.2.2.2.1 (mkKMeansProbe c9kmCfg)
      (c9_not_fitted_errors.1 c9kmCfg)).2.2 [[1, 2]]
  · exact (c9_not_fitted_errors.2.2.2.2.1 (mkPCAProbe c9pcaCfg)
      (c9_not_fitted_errors.2.1 c9pcaCfg)).2.2 [[1, 2]]
  · exact (c9_not_fitted_errors.2.2.2.2.2.1 (mkMeanDifferenceProbe c9mdCfg)
      (c9_not_fitted_errors.2.2.1 c9mdCfg)).2.2 [[1, 2]]
  · exact c9_not_fitted_errors.2.2.2.2.2.2.1 c9linProbe [[1, 2, 3]]
      ProbeError.einsumSize rfl

lemma dedup_length_gt_one {dims : List Nat} {a b : Nat}
    (ha : a ∈ dims) (hb : b ∈ dims) (hab : a ≠ b) : 1 < dims.dedup.length := by
  have ha2 : a ∈ dims.dedup := List.mem_dedup.mpr ha
  have hb2 : b ∈ dims.dedup := List.mem_dedup.mpr hb
  rcases hd : dims.dedup with _ | ⟨c, _ | ⟨c2, t⟩⟩
  · rw [hd] at ha2; simp at ha2
  · rw [hd] at ha2 hb2
    simp at ha2 hb2
    exact absurd (ha2.trans hb2.symm) hab
  · simp [hd]

lemma dedup_length_le_one {dims : List Nat}
    (h : ∀ a ∈ dims, ∀ b ∈ dims, a = b) : dims.dedup.length ≤ 1 := by
  rcases hd : dims.dedup with _ | ⟨c, _ | ⟨c2, t⟩⟩
  · simp
  · simp
  · exfalso
    have hnd := List.nodup_dedup dims
    rw [hd] at hnd
    have hc : c ∈ dims := List.mem_dedup.mp (by rw [hd]; simp)
    have hc2 : c2 ∈ dims := List.mem_dedup.mp (by rw [hd]; simp)
    have hcc : c = c2 := h c hc c2 hc2
    rcases List.nodup_cons.mp hnd with ⟨hcn, _⟩
    exact hcn (by rw [hcc]; simp)

/-- C10: constructing a `ProbeSet` from trained probes (those whose
`get_direction` succeeds, producing the dimension list `dims`) raises
`ValueError` and creates no set when the direction lengths are not all equal;
when they are all equal it succeeds, keeps the probe list, and for a
non-empty list derives `model_name`/`hook_point`/`hook_layer` from the first
probe's config. -/
theorem c10_probeset_dims (probes : List AnyProbe) (dims : List Nat)
    (hd : dimsOf probes = Except.ok dims) :
    ((∃ a ∈ dims, ∃ b ∈ dims, a ≠ b) →
      ProbeSet.init probes = Except.error ProbeError.valueError) ∧
    ((∀ a ∈ dims, ∀ b ∈ dims, a = b) →
      ∃ s, ProbeSet.init probes = Except.ok s ∧ s.probes = probes ∧
        ∀ q0, probes.head? = some q0 →
          s.model_name = some (AnyProbe.baseConfig q0).model_name ∧
          s.hook_point = some (AnyProbe.baseConfig q0).hook_point ∧
          s.hook_layer = some (AnyProbe.baseConfig q0).hook_layer) := by
  constructor
  · rintro ⟨a, ha, b, hb, hab⟩
    simp only [ProbeSet.init, hd]
    rw [if_pos (dedup_length_gt_one ha hb hab)]
  · intro hall
    simp only [ProbeSet.init, hd]
    rw [if_neg (by have h1 := dedup_length_le_one hall; omega)]
    refine ⟨_, rfl, rfl, ?_⟩
    intro q0 hq0
    simp [hq0]

/-- Trained mean-difference probe with a 2-dimensional direction. -/
def c10pA : AnyProbe :=
  AnyProbe.meandiff
    { config := { base := { input_size := 2 } }
      direction := some [1, 2], name := "a" }

/-- Trained mean-difference probe with a 3-dimensional direction. -/
def c10pB : AnyProbe :=
  AnyProbe.meandiff
    { config := { base := { input_size := 3 } }
      direction := some [3, 4, 5], name := "b" }

/-- Trained mean-difference probe with another 2-dimensional direction. -/
def c10pC : AnyProbe :=
  AnyProbe.meandiff
    { config := { base := { input_size := 2 } }
      direction := some [6, 7], name := "c" }

/-- Witness for C10: dims `[2, 3]` raise `ValueError`, dims `[2, 2]` build a
set carrying the first probe's metadata. -/
theorem c10_probeset_dims_witness :
    ProbeSet.init [c10pA, c10pB] = Except.error ProbeError.valueError ∧
    (∃ s, ProbeSet.init [c10pA, c10pC] = Except.ok s ∧
      s.probes = [c10pA, c10pC] ∧
      ∀ q0, [c10pA, c10pC].head? = some q0 →
        s.model_name = some (AnyProbe.baseConfig q0).model_name ∧
        s.hook_point = some (AnyProbe.baseConfig q0).hook_point ∧
        s.hook_layer = some (AnyProbe.baseConfig q0).hook_layer) := by
  constructor
  · exact (c10_probeset_dims [c10pA, c10pB] [2, 3] rfl).1
      ⟨2, by simp, 3, by simp, by omega⟩
  · exact (c10_probeset_dims [c10pA, c10pC] [2, 2] rfl).2
      (by intro a ha b hb; simp at ha hb; omega)

lemma map_dirVec_vec (u : List Vec) :
    List.map dirVec (List.map DirResult.vec u) = u := by
  induction u with
  | nil => rfl
  | cons a t ih => simp [dirVec, ih]

lemma map_dirVec_comp (u : List Vec) :
    List.map (dirVec ∘ DirResult.vec) u = u := by
  induction u with
  | nil => rfl
  | cons a t ih =>
    simp only [List.map_cons, ih]
    rfl

lemma getDirections_vecs (l : List AnyProbe) (dd : Nat)
    (hd : ∀ q ∈ l, ∃ v, AnyProbe.get_direction q
        = Except.ok (DirResult.vec v) ∧ v.length = dd) :
    ∃ vs : List Vec, getDirections l = Except.ok (vs.map DirResult.vec) ∧
      vs.length = l.length ∧ (∀ v ∈ vs, v.length = dd) ∧
      ∀ (j : Nat) (hj : j < l.length) (hj2 : j < vs.length),
        AnyProbe.get_direction (l.get ⟨j, hj⟩)
          = Except.ok (DirResult.vec (vs.get ⟨j, hj2⟩)) := by
  induction l with
  | nil => exact ⟨[], rfl, rfl, by simp, by simp⟩
  | cons q rest ih =>
    obtain ⟨v, hv, hvl⟩ := hd q (by simp)
    obtain ⟨vs, h1, h2, h3, h4⟩ := ih (fun q2 hq2 => hd q2 (by simp [hq2]))
    refine ⟨v :: vs, ?_, by simp [h2], ?_, ?_⟩
    · simp [getDirections, hv, h1]
    · intro u hu
      rcases List.mem_cons.mp hu with h5 | h5
      · rw [h5]; exact hvl
      · exact h3 u h5
    · intro j hj hj2
      cases j with
      | zero => simpa using hv
      | succ j2 =>
        simpa using h4 j2 (by simpa using hj) (by simpa using hj2)

lemma column_dot (acts : List Vec) (vs : List Vec) (j : Nat)
    (hj : j < vs.length) :
    column (acts.map (fun row => vs.map (fun v => dot row v))) j
      = acts.map (fun row => dot row (vs.get ⟨j, hj⟩)) := by
  unfold column
  rw [List.map_map]
  congr 1
  funext row
  simp only [Function.comp]
  rw [List.getD_eq_getElem _ _ (by simpa using hj)]
  simp

/-- C8: for a set of trained single-output probes sharing direction length
`dd` and an activation batch of matching width, the batched `ProbeSet.encode`
succeeds, has one row per activation row, and its column `j` equals the
output of `probes[j].encode` on the same batch. -/
theorem c8_probeset_encode_equiv (s : ProbeSet) (acts : List Vec) (dd : Nat)
    (hne : s.probes ≠ [])
    (hd : ∀ q ∈ s.probes, ∃ v, AnyProbe.get_direction q
        = Except.ok (DirResult.vec v) ∧ v.length = dd)
    (ha : ∀ row ∈ acts, row.length = dd) :
    ∃ M, s.encode acts = Except.ok M ∧ M.length = acts.length ∧
      ∀ j : Fin s.probes.length,
        AnyProbe.encode (s.probes.get j) acts = Except.ok (column M j.val) := by
  obtain ⟨vs, h1, h2, h3, h4⟩ := getDirections_vecs s.probes dd hd
  have hvs_ne : vs ≠ [] := by
    intro hnil
    rw [hnil] at h2
    exact hne (List.length_eq_zero.mp h2.symm)
  rcases vs with _ | ⟨v0, t⟩
  · exact absurd rfl hvs_ne
  · have hstack : torchStack ((v0 :: t).map DirResult.vec)
        = Except.ok (v0 :: t) := by
      unfold torchStack
      simp only [List.map_cons]
      rw [if_pos ?hcnd]
      case hcnd =>
        rw [List.all_eq_true]
        intro d hdm
        have e0 : v0.length = dd := h3 v0 (by simp)
        rcases List.mem_cons.mp hdm with h5 | h5
        · rw [h5]; simp
        · obtain ⟨v, hv1, hv2⟩ := List.mem_map.mp h5
          have e1 : v.length = dd := h3 v (by simp [hv1])
          rw [← hv2]
          simp [e1, e0]
      simp [dirVec, map_dirVec_vec, map_dirVec_comp]
    have hcond : (acts.all
        (fun row => row.length == ((v0 :: t).headD []).length)) = true := by
      rw [List.all_eq_true]
      intro row hrow
      have e0 : v0.length = dd := h3 v0 (by simp)
      simp [ha row hrow, e0]
    refine ⟨acts.map (fun row => (v0 :: t).map (fun v => dot row v)),
      ?_, by simp, ?_⟩
    · simp only [ProbeSet.encode, h1, hstack, hcond, if_true]
    · intro j
      have hj2 : j.val < (v0 :: t).length := by rw [h2]; exact j.isLt
      have hgd := h4 j.val j.isLt hj2
      have hvj : ((v0 :: t).get ⟨j.val, hj2⟩).length = dd :=
        h3 _ (List.get_mem _ _ _)
      unfold AnyProbe.encode
      rw [hgd]
      show einsumVecDot acts ((v0 :: t).get ⟨j.val, hj2⟩) = _
      unfold einsumVecDot
      rw [if_pos ?hc, column_dot acts (v0 :: t) j.val hj2]
      case hc =>
        rw [List.all_eq_true]
        intro row hrow
        simp [ha row hrow]
        exact hvj.symm

/-- A two-member set of trained single-output probes over dimension 2. -/
def c8Set : ProbeSet :=
  { probes :=
      [AnyProbe.meandiff
        { config := { base := { input_size := 2 } }
          direction := some [1, 0], name := "a" },
       AnyProbe.meandiff
        { config := { base := { input_size := 2 } }
          direction := some [0, 1], name := "b" }]
    model_name := some "unknown_model"
    hook_point := some "unknown_hook"
    hook_layer := some 0 }

/-- Witness for C8 on a concrete two-probe set and a one-row batch. -/
theorem c8_probeset_encode_equiv_witness :
    ∃ M, c8Set.encode [[2, 3]] = Except.ok M ∧ M.length = [[2, 3]].length ∧
      ∀ j : Fin c8Set.probes.length,
        AnyProbe.encode (c8Set.probes.get j) [[2, 3]]
          = Except.ok (column M j.val) := by
  apply c8_probeset_encode_equiv c8Set [[2, 3]] 2
  · simp [c8Set]
  · intro q hq
    simp only [c8Set, List.mem_cons, List.not_mem_nil, or_false] at hq
    rcases hq with h | h
    · exact ⟨[1, 0], by rw [h]; rfl, rfl⟩
    · exact ⟨[0, 1], by rw [h]; rfl, rfl⟩
  · intro row hrow
    simp only [List.mem_cons, List.not_mem_nil, or_false] at hrow
    rw [hrow]
    rfl
